import Mathlib

/-!
Verification development for the `linkedin-job-search` server (`src/server.ts`).

The TypeScript program is shallowly embedded below:
* `QueryOptions`, `Job` mirror the interfaces in `server.ts`;
* `parseCommandLineArgs`, `getEffectiveQueryOptions` mirror the CLI
  configuration resolver (lines 81-182);
* `escapeHtml` mirrors the HTML escaper (lines 44-51);
* `startup` mirrors the `app.listen` startup fetch / cache / browser-open
  sequence (lines 449-480), with the settled promise outcome passed in
  explicitly;
* `handleGet` / `renderPage` mirror the `GET /` route handler (lines 185-446).

JavaScript machine-level details are modelled as follows: strings are Lean
`String`s (lists of characters), the JS split at `=` is `splitEq`
on character lists, JS truthiness of a string is the test against `""`,
`undefined`-able values are `Option`s, and the promise settlement is a value
of type `FetchOutcome`.
-/

/-- Character with code 39 (the ASCII apostrophe), used where the source
contains an apostrophe character. -/
def apostropheChar : Char := Char.ofNat 39

/-- Character with code 34 (the ASCII double quote). -/
def quoteChar : Char := Char.ofNat 34

/-- String consisting of one apostrophe. -/
def aposStr : String := String.singleton apostropheChar

/-- String consisting of one double quote. -/
def quoteStr : String := String.singleton quoteChar

/-- The `Job` interface of `server.ts` (lines 16-25): the record shape of one
job posting returned by the collaborator.  `companyLogo` and `salary` are
optional there, hence `Option String` here. -/
structure Job where
  position : String
  company : String
  companyLogo : Option String
  location : String
  date : String
  agoTime : String
  salary : Option String
  jobUrl : String
deriving DecidableEq, Repr

/-- The `QueryOptions` interface of `server.ts` (lines 28-38).  The TS union
types are string literal unions; each field is a `String` here, and the
enumeration constraints are enforced by the parser exactly as in the source. -/
structure QueryOptions where
  keyword : String
  location : String
  dateSincePosted : String
  limit : String
  jobType : String
  remoteFilter : String
  salary : String
  experienceLevel : String
  sortBy : String
deriving DecidableEq, Repr

/-- Models `Partial<QueryOptions>`, the accumulator of
`parseCommandLineArgs`: every field may be absent (`none`). -/
structure QueryOverrides where
  keyword : Option String := none
  location : Option String := none
  dateSincePosted : Option String := none
  limit : Option String := none
  jobType : Option String := none
  remoteFilter : Option String := none
  salary : Option String := none
  experienceLevel : Option String := none
  sortBy : Option String := none
deriving DecidableEq, Repr

/-- The empty `Partial<QueryOptions>` (`const args = {}`, line 82). -/
def emptyOverrides : QueryOverrides := {}

/-- `hardcodedDefaultOptions` of `getEffectiveQueryOptions` (lines 164-174). -/
def hardcodedDefaultOptions : QueryOptions :=
  { keyword := "Vue.js, Angular"
    location := "london"
    dateSincePosted := "past Week"
    limit := "100"
    jobType := ""
    remoteFilter := ""
    salary := ""
    experienceLevel := ""
    sortBy := "recent" }

/-- `validDateSincePosted` (line 101). -/
def validDateSincePosted : List String := ["24hr", "past Week", "past Month", ""]

/-- `validJobTypes` (line 109). -/
def validJobTypes : List String :=
  ["full time", "part time", "contract", "temporary", "volunteer", "internship", ""]

/-- `validRemoteFilters` (line 117). -/
def validRemoteFilters : List String := ["on site", "remote", "hybrid", ""]

/-- `validSalaries` (line 125). -/
def validSalaries : List String := ["40000", "60000", "80000", "100000", "120000", ""]

/-- `validExperienceLevels` (line 133). -/
def validExperienceLevels : List String :=
  ["internship", "entry level", "associate", "senior", "director", "executive", ""]

/-- `validSortBys` (line 141). -/
def validSortBys : List String := ["recent", "relevant"]

/-- The `console.warn` text for an out-of-enumeration value (e.g. line 105). -/
def invalidValueWarning (key value : String) (valids : List String) : String :=
  "Invalid value for --" ++ key ++ ": " ++ quoteStr ++ value ++ quoteStr ++ ". Must be one of " ++
    String.intercalate ", " (valids.map (fun v => quoteStr ++ v ++ quoteStr)) ++ ". Ignoring."

/-- The `console.warn` text for an unknown key (line 149). -/
def unknownKeyWarning (key : String) : String :=
  "Unknown command-line argument: --" ++ key ++ ". Ignoring."

/-- The `console.warn` text for a malformed `--`-token (line 153). -/
def invalidFormatWarning (arg : String) : String :=
  "Invalid command-line argument format: " ++ quoteStr ++ arg ++ quoteStr ++
    ". Expected --key=value. Ignoring."

/-- The `console.warn` text for a token not starting with `--` (line 156). -/
def unrecognizedWarning (arg : String) : String :=
  "Unrecognized command-line argument: " ++ quoteStr ++ arg ++ quoteStr ++
    ". Expected arguments to start with " ++ aposStr ++ "--" ++ aposStr ++ ". Ignoring."

/-- JavaScript `String.prototype.split` with separator `=`, on character
lists: splits at every occurrence of the character. -/
def splitEq : List Char → List (List Char)
  | [] => [[]]
  | c :: cs =>
    if c = Char.ofNat 61 then [] :: splitEq cs
    else
      match splitEq cs with
      | [] => [[c]]
      | p :: ps => (c :: p) :: ps

/-- The key/value extraction of lines 91-92: substring(2) then split at `=`,
destructured as `[key, value]`, followed by the `key && value !== undefined`
truthiness check.  Returns `none` exactly when the source falls into the
"Invalid command-line argument format" branch. -/
def parseKV (rest : List Char) : Option (String × String) :=
  match (splitEq rest)[1]? with
  | some vl =>
      if String.mk ((splitEq rest).headD []) = "" then none
      else some (String.mk ((splitEq rest).headD []), String.mk vl)
  | none => none

/-- Whether `value` is accepted for `key` by the `switch` of lines 94-151:
free-form for `keyword`/`location`/`limit`, enumeration membership for the
other recognized keys, `false` for unknown keys. -/
def validForKey (key value : String) : Bool :=
  if key = "keyword" then true
  else if key = "location" then true
  else if key = "limit" then true
  else if key = "dateSincePosted" then validDateSincePosted.contains value
  else if key = "jobType" then validJobTypes.contains value
  else if key = "remoteFilter" then validRemoteFilters.contains value
  else if key = "salary" then validSalaries.contains value
  else if key = "experienceLevel" then validExperienceLevels.contains value
  else if key = "sortBy" then validSortBys.contains value
  else false

/-- The JS startsWith check for a leading `--` (line 90). -/
def startsWithDashDash (arg : String) : Bool :=
  match arg.toList with
  | '-' :: '-' :: _ => true
  | _ => false

/-- JavaScript `arg.substring(2)` (line 91), as a character list. -/
def afterDashDash (arg : String) : List Char := arg.toList.drop 2

/-- The `switch (key)` of lines 94-151, rendered as an if-chain over the
same string literals: free-form keys store the value, enumeration keys store
it only when it passes the `includes` check (warning otherwise), and an
unknown key warns. -/
def applySwitch (acc : QueryOverrides) (key value : String) : QueryOverrides × List String :=
  if key = "keyword" then ({ acc with keyword := some value }, [])
  else if key = "location" then ({ acc with location := some value }, [])
  else if key = "limit" then ({ acc with limit := some value }, [])
  else if key = "dateSincePosted" then
    if validDateSincePosted.contains value then
      ({ acc with dateSincePosted := some value }, [])
    else (acc, [invalidValueWarning key value validDateSincePosted])
  else if key = "jobType" then
    if validJobTypes.contains value then ({ acc with jobType := some value }, [])
    else (acc, [invalidValueWarning key value validJobTypes])
  else if key = "remoteFilter" then
    if validRemoteFilters.contains value then ({ acc with remoteFilter := some value }, [])
    else (acc, [invalidValueWarning key value validRemoteFilters])
  else if key = "salary" then
    if validSalaries.contains value then ({ acc with salary := some value }, [])
    else (acc, [invalidValueWarning key value validSalaries])
  else if key = "experienceLevel" then
    if validExperienceLevels.contains value then
      ({ acc with experienceLevel := some value }, [])
    else (acc, [invalidValueWarning key value validExperienceLevels])
  else if key = "sortBy" then
    if validSortBys.contains value then ({ acc with sortBy := some value }, [])
    else (acc, [invalidValueWarning key value validSortBys])
  else (acc, [unknownKeyWarning key])

/-- One iteration of the argument loop body of `parseCommandLineArgs`
(lines 90-157), for a token that is not `--help`/`-h`: returns the updated
accumulator together with the warnings emitted for this token. -/
def processArg (acc : QueryOverrides) (arg : String) : QueryOverrides × List String :=
  if startsWithDashDash arg then
    match parseKV (afterDashDash arg) with
    | some (key, value) => applySwitch acc key value
    | none => (acc, [invalidFormatWarning arg])
  else (acc, [unrecognizedWarning arg])

/-- Whether processing `arg` writes a field of the accumulator: `arg` starts
with `--`, splits into a truthy key and a defined value, the key is one of
the nine recognized option names, and the (post-split) value is valid for
that key.  This mirrors exactly the set-branches of `processArg`. -/
def isRecognizedOverride (arg : String) : Bool :=
  if startsWithDashDash arg then
    match parseKV (afterDashDash arg) with
    | some (key, value) => validForKey key value
    | none => false
  else false

/-- Result of running the argument loop: either the process printed usage
and exited (a `--help`/`-h` token was reached; the warnings already emitted
are carried along), or the loop finished with the accumulated overrides and
warnings. -/
inductive ParseOutcome where
  | helpExit (warningsSoFar : List String)
  | parsed (opts : QueryOverrides) (warnings : List String)
deriving DecidableEq, Repr

/-- The argument loop of `parseCommandLineArgs` (lines 85-158): tokens are
scanned left to right; `--help`/`-h` is checked first and aborts the loop. -/
def parseGo (acc : QueryOverrides) (ws : List String) : List String → ParseOutcome
  | [] => ParseOutcome.parsed acc ws
  | arg :: rest =>
    if arg = "--help" ∨ arg = "-h" then ParseOutcome.helpExit ws
    else
      let step := processArg acc arg
      parseGo step.1 (ws ++ step.2) rest

/-- `parseCommandLineArgs` (lines 81-160), applied to `process.argv.slice(2)`. -/
def parseCommandLineArgs (argv : List String) : ParseOutcome :=
  parseGo emptyOverrides [] argv

/-- The overrides of a parse result, when the loop completed. -/
def parsedOpts : ParseOutcome → Option QueryOverrides
  | ParseOutcome.helpExit _ => none
  | ParseOutcome.parsed a _ => some a

/-- The warnings of a parse result. -/
def parsedWarnings : ParseOutcome → List String
  | ParseOutcome.helpExit w => w
  | ParseOutcome.parsed _ w => w

/-- The spread merge `{ ...hardcodedDefaultOptions, ...cmdLineArgs }`
(line 181): each present override replaces the default, field by field. -/
def mergeOptions (p : QueryOverrides) : QueryOptions :=
  { keyword := p.keyword.getD hardcodedDefaultOptions.keyword
    location := p.location.getD hardcodedDefaultOptions.location
    dateSincePosted := p.dateSincePosted.getD hardcodedDefaultOptions.dateSincePosted
    limit := p.limit.getD hardcodedDefaultOptions.limit
    jobType := p.jobType.getD hardcodedDefaultOptions.jobType
    remoteFilter := p.remoteFilter.getD hardcodedDefaultOptions.remoteFilter
    salary := p.salary.getD hardcodedDefaultOptions.salary
    experienceLevel := p.experienceLevel.getD hardcodedDefaultOptions.experienceLevel
    sortBy := p.sortBy.getD hardcodedDefaultOptions.sortBy }

/-- `getEffectiveQueryOptions` (lines 163-182).  Returns `none` when the
process exits through the help path before producing any options. -/
def getEffectiveQueryOptions (argv : List String) : Option QueryOptions :=
  match parseCommandLineArgs argv with
  | ParseOutcome.helpExit _ => none
  | ParseOutcome.parsed acc _ => some (mergeOptions acc)

/-- One global-regex single-character replacement pass, the meaning of
JavaScript `str.replace(/c/g, r)` for a one-character pattern. -/
def replaceAllChar (c : Char) (r : List Char) : List Char → List Char
  | [] => []
  | x :: xs => (if x = c then r else [x]) ++ replaceAllChar c r xs

/-- `escapeHtml` (lines 44-51): the five chained global replacements
`&`→`&amp;`, `<`→`&lt;`, `>`→`&gt;`, `"`→`&quot;`, apostrophe→`&#039;`,
applied in that order. -/
def escapeHtml (s : String) : String :=
  String.mk
    (replaceAllChar apostropheChar "&#039;".toList
      (replaceAllChar quoteChar "&quot;".toList
        (replaceAllChar '>' "&gt;".toList
          (replaceAllChar '<' "&lt;".toList
            (replaceAllChar '&' "&amp;".toList s.toList)))))

/-- The JS or-else fallback to `N/A` for a string field: the fallback also
fires on the empty string (falsy). -/
def orNA (s : String) : String := if s = "" then "N/A" else s

/-- The JS or-else fallback to `N/A` for an optional string field. -/
def orNAOpt : Option String → String
  | some v => orNA v
  | none => "N/A"

/-- The JS or-else fallback of the job URL to the `#` anchor. -/
def orHash (s : String) : String := if s = "" then "#" else s

/-- One `<tr>` of the job table body (lines 378-387), with every dynamic
field passed through `escapeHtml` exactly as in the source template. -/
def jobRow (job : Job) : String :=
  "<tr><td>" ++ escapeHtml (orNA job.position) ++
  "</td><td>" ++ escapeHtml (orNA job.company) ++
  "</td><td>" ++ escapeHtml (orNA job.location) ++
  "</td><td>" ++ escapeHtml (orNA job.date) ++ " (" ++ escapeHtml (orNA job.agoTime) ++
  ")</td><td>" ++ escapeHtml (orNAOpt job.salary) ++
  "</td><td><a href=" ++ quoteStr ++ escapeHtml (orHash job.jobUrl) ++ quoteStr ++
  " target=" ++ quoteStr ++ "_blank" ++ quoteStr ++
  " class=" ++ quoteStr ++ "job-link rounded-md p-1 hover:bg-indigo-50" ++ quoteStr ++
  ">View Job</a></td></tr>"

/-- The table body: map over `cachedJobs` joined with the empty separator (lines 378-387). -/
def jobRowsHtml (jobs : List Job) : String := String.join (jobs.map jobRow)

/-- The conditional error banner (lines 360-363); note the source inserts
`cachedErrorMessage` without escaping. -/
def errorBannerHtml (msg : String) : String :=
  if msg = "" then ""
  else
    "<div class=" ++ quoteStr ++ "bg-red-100 border border-red-400 text-red-700 px-4 py-3 rounded-md relative mb-6" ++ quoteStr ++
    " role=" ++ quoteStr ++ "alert" ++ quoteStr ++ "><strong class=" ++ quoteStr ++ "font-bold" ++ quoteStr ++
    ">Error!</strong><span class=" ++ quoteStr ++ "block sm:inline" ++ quoteStr ++ ">" ++ msg ++ "</span></div>"

/-- The conditional `selected` attribute marker of the form `<option>` rows
(e.g. line 303). -/
def selectedIf (b : Bool) : String := if b then "selected" else ""

/-- One `<option>` element of a form `<select>`. -/
def optionHtml (value label : String) (sel : Bool) : String :=
  "<option value=" ++ quoteStr ++ value ++ quoteStr ++ " " ++ selectedIf sel ++ ">" ++ label ++ "</option>"

/-- The dynamic parts of the filter form (lines 290-358): the two text
inputs and the number input take the escaped current option values, and each
`<select>` marks the current value `selected`. -/
def formHtml (q : QueryOptions) : String :=
  "<form id=" ++ quoteStr ++ "filterForm" ++ quoteStr ++ ">" ++
  "<input type=" ++ quoteStr ++ "text" ++ quoteStr ++ " id=" ++ quoteStr ++ "keyword" ++ quoteStr ++
    " value=" ++ quoteStr ++ escapeHtml q.keyword ++ quoteStr ++ ">" ++
  "<input type=" ++ quoteStr ++ "text" ++ quoteStr ++ " id=" ++ quoteStr ++ "location" ++ quoteStr ++
    " value=" ++ quoteStr ++ escapeHtml q.location ++ quoteStr ++ ">" ++
  "<select id=" ++ quoteStr ++ "dateSincePosted" ++ quoteStr ++ ">" ++
    optionHtml "past Week" "Past Week" (q.dateSincePosted = "past Week") ++
    optionHtml "24hr" "Past 24 Hours" (q.dateSincePosted = "24hr") ++
    optionHtml "past Month" "Past Month" (q.dateSincePosted = "past Month") ++
    optionHtml "" "Anytime" (q.dateSincePosted = "") ++ "</select>" ++
  "<input type=" ++ quoteStr ++ "number" ++ quoteStr ++ " id=" ++ quoteStr ++ "limit" ++ quoteStr ++
    " value=" ++ quoteStr ++ escapeHtml q.limit ++ quoteStr ++ ">" ++
  "<select id=" ++ quoteStr ++ "jobType" ++ quoteStr ++ ">" ++
    optionHtml "" "Any" (q.jobType = "") ++
    optionHtml "full time" "Full-time" (q.jobType = "full time") ++
    optionHtml "part time" "Part-time" (q.jobType = "part time") ++
    optionHtml "contract" "Contract" (q.jobType = "contract") ++
    optionHtml "temporary" "Temporary" (q.jobType = "temporary") ++
    optionHtml "volunteer" "Volunteer" (q.jobType = "volunteer") ++
    optionHtml "internship" "Internship" (q.jobType = "internship") ++ "</select>" ++
  "<select id=" ++ quoteStr ++ "remoteFilter" ++ quoteStr ++ ">" ++
    optionHtml "" "Any" (q.remoteFilter = "") ++
    optionHtml "remote" "Remote" (q.remoteFilter = "remote") ++
    optionHtml "on site" "On-site" (q.remoteFilter = "on site") ++
    optionHtml "hybrid" "Hybrid" (q.remoteFilter = "hybrid") ++ "</select>" ++
  "<select id=" ++ quoteStr ++ "experienceLevel" ++ quoteStr ++ ">" ++
    optionHtml "" "Any" (q.experienceLevel = "") ++
    optionHtml "internship" "Internship" (q.experienceLevel = "internship") ++
    optionHtml "entry level" "Entry Level" (q.experienceLevel = "entry level") ++
    optionHtml "associate" "Associate" (q.experienceLevel = "associate") ++
    optionHtml "senior" "Senior" (q.experienceLevel = "senior") ++
    optionHtml "director" "Director" (q.experienceLevel = "director") ++
    optionHtml "executive" "Executive" (q.experienceLevel = "executive") ++ "</select>" ++
  "<select id=" ++ quoteStr ++ "sortBy" ++ quoteStr ++ ">" ++
    optionHtml "recent" "Recent" (q.sortBy = "recent") ++
    optionHtml "relevant" "Relevant" (q.sortBy = "relevant") ++ "</select>" ++
  "</form>"

/-- The state-independent document head (lines 192-287).  The `<style>` body
is a constant with no interpolation; its exact CSS text is irrelevant to
every property below and is abbreviated here. -/
def pageHead : String :=
  "<!DOCTYPE html><html lang=" ++ quoteStr ++ "en" ++ quoteStr ++
  "><head><title>LinkedIn Job Search (TypeScript)</title><style>(static css)</style></head><body>"

/-- The static table header markup (lines 365-377). -/
def tableHeadHtml : String :=
  "<table id=" ++ quoteStr ++ "jobTable" ++ quoteStr ++
  "><thead><tr><th>Position</th><th>Company</th><th>Location</th><th>Posted Date</th><th>Salary</th><th>Link</th></tr></thead><tbody>"

/-- The state-independent document tail, including the client-side script
(lines 388-444), which is a constant with no interpolation (abbreviated). -/
def pageFoot : String :=
  "</tbody></table><script>(static client-side script)</script></body></html>"

/-- The full `GET /` response body (lines 191-445), as a function of the
resolved query options (echoed into the form) and the cached state. -/
def renderPage (q : QueryOptions) (jobs : List Job) (errMsg : String) : String :=
  pageHead ++ formHtml q ++ errorBannerHtml errMsg ++ tableHeadHtml ++ jobRowsHtml jobs ++ pageFoot

/-- The process-wide mutable state of `server.ts` (lines 11-13). -/
structure ServerState where
  cachedJobs : List Job
  cachedErrorMessage : String
  isInitialFetchComplete : Bool
deriving DecidableEq, Repr

/-- The initial values of the globals (lines 11-13). -/
def initialState : ServerState :=
  { cachedJobs := [], cachedErrorMessage := "", isInitialFetchComplete := false }

/-- The `GET /` handler (lines 185-446): re-resolves the query options for
the form (re-running the CLI parse), renders the page from the cached state,
and performs no write to any global.  The response is `none` in the
(startup-unreachable) case where re-parsing hits the help exit. -/
def handleGet (argv : List String) (s : ServerState) : Option String × ServerState :=
  match parseCommandLineArgs argv with
  | ParseOutcome.helpExit _ => (none, s)
  | ParseOutcome.parsed acc _ =>
      (some (renderPage (mergeOptions acc) s.cachedJobs s.cachedErrorMessage), s)

/-- The error value a rejected collaborator promise carries (the `.catch`
handler reads `error.message` and `error.response.status`, lines 466-471):
`message` may be absent, and `responseStatus` is `some n` when
`error.response` exists and has status `n`. -/
structure JsError where
  message : Option String
  responseStatus : Option Nat
deriving DecidableEq, Repr

/-- How the single startup promise settles: resolved with an array value
(`Array.isArray(response)` true), resolved with any non-array value, or
rejected with an error. -/
inductive FetchOutcome where
  | resolvedArray (jobs : List Job)
  | resolvedNonArray
  | rejected (e : JsError)
deriving DecidableEq, Repr

/-- Observable side effects of the startup sequence. -/
inductive Effect where
  | logMsg (s : String)
  | warn (s : String)
  | printUsage
  | exitZero
  | fetchQuery (q : QueryOptions)
  | openBrowser (url : String)
deriving DecidableEq, Repr

/-- Whether an action is the browser-open action. -/
def isOpenAction : Effect → Bool
  | Effect.openBrowser _ => true
  | _ => false

/-- `http://localhost:${PORT}` (lines 450, 476). -/
def baseUrl (port : String) : String := "http://localhost:" ++ port

/-- The startup log line (line 450). -/
def serverRunningMsg (port : String) : String := "Server running on " ++ baseUrl port

/-- The pre-fetch log line (line 454). -/
def performingMsg : String := "Performing initial job search..."

/-- The fixed data-shape diagnostic (line 463). -/
def noJobsFoundMsg : String :=
  "No jobs found or unexpected API response format during initial fetch."

/-- The `console.warn` of the non-array branch (line 462). -/
def nonArrayWarnMsg : String :=
  "Initial fetch: API response was not an array or was empty:"

/-- The fixed head of the rejection message (line 468). -/
def failPre : String := "Failed to fetch jobs during initial startup: "

/-- The fixed tail of the rejection message (line 468). -/
def failSuf : String := ". Please check your connection or API limits."

/-- The rate-limit hint appended on HTTP 429 (line 470). -/
def rateLimitHint : String :=
  " You might have hit a rate limit. Please wait and try again."

/-- The JS or-else fallback of the error message (line 468): an absent
message falls back to `Unknown error`, and so does an EMPTY message, since
the empty string is falsy in JavaScript. -/
def orUnknown : Option String → String
  | some v => if v = "" then "Unknown error" else v
  | none => "Unknown error"

/-- The full cached message built by the `.catch` handler (lines 466-471). -/
def fetchFailMsg (e : JsError) : String :=
  let base := failPre ++ orUnknown e.message ++ failSuf
  if e.responseStatus = some 429 then base ++ rateLimitHint else base

/-- The browser-open success log (line 477). -/
def openedMsg (port : String) : String := "Opened " ++ baseUrl port ++ " in browser."

/-- The browser-open failure log (line 478). -/
def failedOpenMsg : String := "Failed to open browser:"

/-- The `.then`/`.catch` settlement of the startup fetch (lines 457-472):
state update plus the console output of the taken branch. -/
def settleFetch (s : ServerState) (o : FetchOutcome) : ServerState × List Effect :=
  match o with
  | FetchOutcome.resolvedArray jobs =>
      ({ s with cachedJobs := jobs },
       [Effect.logMsg ("Initial fetch completed. Fetched " ++ toString jobs.length ++ " jobs.")])
  | FetchOutcome.resolvedNonArray =>
      ({ s with cachedErrorMessage := noJobsFoundMsg }, [Effect.warn nonArrayWarnMsg])
  | FetchOutcome.rejected e =>
      ({ s with cachedErrorMessage := fetchFailMsg e },
       [Effect.logMsg "Initial fetch: Error fetching jobs:"])

/-- The `.finally` handler (lines 473-479): marks the fetch complete and
opens the browser once; `openOk` is whether the `open(...)` promise
resolved, which only selects the logged line. -/
def finallyStep (s : ServerState) (openOk : Bool) (port : String) : ServerState × List Effect :=
  ({ s with isInitialFetchComplete := true },
   [Effect.openBrowser (baseUrl port),
    if openOk then Effect.logMsg (openedMsg port) else Effect.logMsg failedOpenMsg])

/-- The whole `app.listen` callback (lines 449-480): resolve the options
(possibly exiting through help), then run the single fetch with the given
settlement, then the `.finally` step.  Returns the final state of the
globals and the ordered side effects of the run. -/
def startup (argv : List String) (outcome : FetchOutcome) (openOk : Bool) (port : String) :
    ServerState × List Effect :=
  match parseCommandLineArgs argv with
  | ParseOutcome.helpExit ws =>
      (initialState,
       Effect.logMsg (serverRunningMsg port) ::
         (ws.map Effect.warn ++ [Effect.printUsage, Effect.exitZero]))
  | ParseOutcome.parsed acc ws =>
      let q := mergeOptions acc
      let st := settleFetch initialState outcome
      let fin := finallyStep st.1 openOk port
      (fin.1,
       Effect.logMsg (serverRunningMsg port) ::
         (ws.map Effect.warn ++
           (Effect.logMsg performingMsg :: Effect.fetchQuery q :: (st.2 ++ fin.2))))

/-- The side effects of a startup run. -/
def startupActions (argv : List String) (outcome : FetchOutcome) (openOk : Bool) (port : String) :
    List Effect :=
  (startup argv outcome openOk port).2

/-- The final state of the globals after a startup run. -/
def startupState (argv : List String) (outcome : FetchOutcome) (openOk : Bool) (port : String) :
    ServerState :=
  (startup argv outcome openOk port).1

/-- States the globals can be in over a process lifetime: the initial value,
or the value after the single startup run settles (the `GET /` handler
performs no writes, so it adds no states). -/
inductive Reachable : ServerState → Prop
  | init : Reachable initialState
  | settled (argv : List String) (o : FetchOutcome) (openOk : Bool) (port : String) :
      Reachable (startupState argv o openOk port)

/-- The nine recognized option fields, one per `QueryOptions` field. -/
inductive OptField where
  | keyword | location | dateSincePosted | limit | jobType
  | remoteFilter | salary | experienceLevel | sortBy
deriving DecidableEq, Repr

/-- The CLI key naming a field. -/
def fieldKey : OptField → String
  | OptField.keyword => "keyword"
  | OptField.location => "location"
  | OptField.dateSincePosted => "dateSincePosted"
  | OptField.limit => "limit"
  | OptField.jobType => "jobType"
  | OptField.remoteFilter => "remoteFilter"
  | OptField.salary => "salary"
  | OptField.experienceLevel => "experienceLevel"
  | OptField.sortBy => "sortBy"

/-- Write one field of the override record (`args[key] = value`). -/
def setField (p : QueryOverrides) (f : OptField) (v : String) : QueryOverrides :=
  match f with
  | OptField.keyword => { p with keyword := some v }
  | OptField.location => { p with location := some v }
  | OptField.dateSincePosted => { p with dateSincePosted := some v }
  | OptField.limit => { p with limit := some v }
  | OptField.jobType => { p with jobType := some v }
  | OptField.remoteFilter => { p with remoteFilter := some v }
  | OptField.salary => { p with salary := some v }
  | OptField.experienceLevel => { p with experienceLevel := some v }
  | OptField.sortBy => { p with sortBy := some v }

/-- Read one field of the override record. -/
def getOverrideField (p : QueryOverrides) : OptField → Option String
  | OptField.keyword => p.keyword
  | OptField.location => p.location
  | OptField.dateSincePosted => p.dateSincePosted
  | OptField.limit => p.limit
  | OptField.jobType => p.jobType
  | OptField.remoteFilter => p.remoteFilter
  | OptField.salary => p.salary
  | OptField.experienceLevel => p.experienceLevel
  | OptField.sortBy => p.sortBy

/-- Read one field of a resolved `QueryOptions`. -/
def getQueryField (q : QueryOptions) : OptField → String
  | OptField.keyword => q.keyword
  | OptField.location => q.location
  | OptField.dateSincePosted => q.dateSincePosted
  | OptField.limit => q.limit
  | OptField.jobType => q.jobType
  | OptField.remoteFilter => q.remoteFilter
  | OptField.salary => q.salary
  | OptField.experienceLevel => q.experienceLevel
  | OptField.sortBy => q.sortBy

/-- The enumeration the values of a field are checked against (empty for the
free-form fields, whose values are never rejected). -/
def enumOf : OptField → List String
  | OptField.keyword => []
  | OptField.location => []
  | OptField.limit => []
  | OptField.dateSincePosted => validDateSincePosted
  | OptField.jobType => validJobTypes
  | OptField.remoteFilter => validRemoteFilters
  | OptField.salary => validSalaries
  | OptField.experienceLevel => validExperienceLevels
  | OptField.sortBy => validSortBys

/-- Validity of `v` for field `f`. -/
def validForField (f : OptField) (v : String) : Bool := validForKey (fieldKey f) v

/-- The CLI token overriding field `f` with value `v`. -/
def mkTok (f : OptField) (v : String) : String := "--" ++ fieldKey f ++ "=" ++ v

/-- String append is list append on the character data. -/
theorem toList_append (a b : String) : (a ++ b).toList = a.toList ++ b.toList := rfl

/-- Splitting a list without the separator yields the single chunk. -/
theorem splitEq_no_sep (l : List Char) (h : Char.ofNat 61 ∉ l) : splitEq l = [l] := by
  induction l with
  | nil => rfl
  | cons c cs ih =>
    simp only [List.mem_cons, not_or] at h
    simp only [splitEq]
    rw [if_neg (by exact fun hc => h.1 hc.symm), ih h.2]

/-- Splitting `key = value...` at the first separator peels off `key` when
`key` itself is separator-free. -/
theorem splitEq_append (k r : List Char) (h : Char.ofNat 61 ∉ k) :
    splitEq (k ++ Char.ofNat 61 :: r) = k :: splitEq r := by
  induction k with
  | nil => simp [splitEq]
  | cons c cs ih =>
    simp only [List.mem_cons, not_or] at h
    simp only [List.cons_append, splitEq, List.append_eq]
    rw [if_neg (fun hc => h.1 hc.symm), ih h.2]

/-- The switch leaves the accumulator unchanged when the value is not valid
for the key (warning-only branches). -/
theorem applySwitch_not_valid (acc : QueryOverrides) (key value : String)
    (h : validForKey key value = false) : (applySwitch acc key value).1 = acc := by
  unfold validForKey at h
  unfold applySwitch
  by_cases h1 : key = "keyword"
  · rw [if_pos h1] at h; exact absurd h (by simp)
  · rw [if_neg h1] at h ⊢
    by_cases h2 : key = "location"
    · rw [if_pos h2] at h; exact absurd h (by simp)
    · rw [if_neg h2] at h ⊢
      by_cases h3 : key = "limit"
      · rw [if_pos h3] at h; exact absurd h (by simp)
      · rw [if_neg h3] at h ⊢
        by_cases h4 : key = "dateSincePosted"
        · rw [if_pos h4] at h ⊢; rw [h]; simp
        · rw [if_neg h4] at h ⊢
          by_cases h5 : key = "jobType"
          · rw [if_pos h5] at h ⊢; rw [h]; simp
          · rw [if_neg h5] at h ⊢
            by_cases h6 : key = "remoteFilter"
            · rw [if_pos h6] at h ⊢; rw [h]; simp
            · rw [if_neg h6] at h ⊢
              by_cases h7 : key = "salary"
              · rw [if_pos h7] at h ⊢; rw [h]; simp
              · rw [if_neg h7] at h ⊢
                by_cases h8 : key = "experienceLevel"
                · rw [if_pos h8] at h ⊢; rw [h]; simp
                · rw [if_neg h8] at h ⊢
                  by_cases h9 : key = "sortBy"
                  · rw [if_pos h9] at h ⊢; rw [h]; simp
                  · rw [if_neg h9]

/-- A token that is not a recognized valid override leaves the accumulator
unchanged (it only emits a warning). -/
theorem processArg_not_override (acc : QueryOverrides) (arg : String)
    (h : isRecognizedOverride arg = false) : (processArg acc arg).1 = acc := by
  unfold processArg
  unfold isRecognizedOverride at h
  by_cases hd : startsWithDashDash arg
  · rw [if_pos hd] at h ⊢
    cases hkv : parseKV (afterDashDash arg) with
    | none => rfl
    | some kv =>
      rw [hkv] at h
      obtain ⟨key, value⟩ := kv
      have h2 : validForKey key value = false := h
      exact applySwitch_not_valid acc key value h2
  · rw [if_neg hd]

/-- Effect of one more trailing token on the argument loop. -/
theorem parseGo_append (args : List String) (tok : String) :
    ∀ acc ws, parseGo acc ws (args ++ [tok]) =
      match parseGo acc ws args with
      | ParseOutcome.helpExit w => ParseOutcome.helpExit w
      | ParseOutcome.parsed a w =>
        if tok = "--help" ∨ tok = "-h" then ParseOutcome.helpExit w
        else ParseOutcome.parsed (processArg a tok).1 (w ++ (processArg a tok).2) := by
  induction args with
  | nil => intro acc ws; simp [parseGo]
  | cons arg rest ih =>
    intro acc ws
    simp only [List.cons_append, parseGo]
    by_cases h : arg = "--help" ∨ arg = "-h"
    · rw [if_pos h, if_pos h]
    · rw [if_neg h, if_neg h]
      exact ih _ _

/-- If no token of the list is a recognized valid override, the loop never
changes the accumulator it started from. -/
theorem parseGo_no_override (argv : List String) :
    ∀ acc ws a w, (∀ t ∈ argv, isRecognizedOverride t = false) →
      parseGo acc ws argv = ParseOutcome.parsed a w → a = acc := by
  induction argv with
  | nil =>
    intro acc ws a w _ hp
    simp only [parseGo] at hp
    cases hp
    rfl
  | cons arg rest ih =>
    intro acc ws a w h hp
    simp only [parseGo] at hp
    by_cases hh : arg = "--help" ∨ arg = "-h"
    · rw [if_pos hh] at hp; cases hp
    · rw [if_neg hh] at hp
      have hrest := ih (processArg acc arg).1 (ws ++ (processArg acc arg).2) a w
        (fun t ht => h t (List.mem_cons_of_mem _ ht)) hp
      rw [hrest, processArg_not_override acc arg (h arg (List.mem_cons_self _ _))]

/-- A `--help`/`-h` token anywhere aborts the loop in the help-exit state,
with warnings independent of everything after it. -/
theorem parseGo_help (pre : List String) (htok : String)
    (hh : htok = "--help" ∨ htok = "-h") :
    ∀ acc ws, ∃ w, ∀ post, parseGo acc ws (pre ++ htok :: post) = ParseOutcome.helpExit w := by
  induction pre with
  | nil =>
    intro acc ws
    exact ⟨ws, fun post => by simp [parseGo, hh]⟩
  | cons arg rest ih =>
    intro acc ws
    by_cases ha : arg = "--help" ∨ arg = "-h"
    · exact ⟨ws, fun post => by simp [parseGo, ha]⟩
    · obtain ⟨w, hw⟩ := ih (processArg acc arg).1 (ws ++ (processArg acc arg).2)
      refine ⟨w, fun post => ?_⟩
      simp only [List.cons_append, parseGo]
      rw [if_neg ha]
      exact hw post

/-- No recognized option key contains the separator character. -/
theorem fieldKey_no_sep (f : OptField) : Char.ofNat 61 ∉ (fieldKey f).toList := by
  cases f <;> decide

/-- No recognized option key names the empty string. -/
theorem fieldKey_ne_empty (f : OptField) : fieldKey f ≠ "" := by
  cases f <;> decide

/-- Key/value extraction on a well-formed `key=value` tail. -/
theorem parseKV_split (k : List Char) (v : String) (hk : Char.ofNat 61 ∉ k)
    (hv : Char.ofNat 61 ∉ v.toList) (hke : String.mk k ≠ "") :
    parseKV (k ++ Char.ofNat 61 :: v.toList) = some (String.mk k, v) := by
  unfold parseKV
  rw [splitEq_append _ _ hk, splitEq_no_sep _ hv]
  simp [hke]

/-- The character list of an override token. -/
theorem mkTok_toList (f : OptField) (v : String) :
    (mkTok f v).toList = '-' :: '-' :: ((fieldKey f).toList ++ Char.ofNat 61 :: v.toList) := by
  have h1 : ("--" ++ fieldKey f ++ "=").toList =
      '-' :: '-' :: ((fieldKey f).toList ++ [Char.ofNat 61]) := by
    cases f <;> rfl
  calc (mkTok f v).toList
      = ("--" ++ fieldKey f ++ "=").toList ++ v.toList := rfl
    _ = '-' :: '-' :: ((fieldKey f).toList ++ Char.ofNat 61 :: v.toList) := by
        rw [h1]; simp

/-- An override token is never one of the help tokens. -/
theorem mkTok_not_help (f : OptField) (v : String) :
    ¬(mkTok f v = "--help" ∨ mkTok f v = "-h") := by
  intro h
  have hm : Char.ofNat 61 ∈ (mkTok f v).toList := by
    rw [mkTok_toList]; simp
  rcases h with h | h <;> rw [h] at hm <;> exact absurd hm (by decide)

/-- Processing an override token `--key=value` (with a separator-free value)
either writes the field (valid value) or warns and leaves the accumulator
unchanged (invalid value). -/
theorem processArg_field (acc : QueryOverrides) (f : OptField) (v : String)
    (hv : Char.ofNat 61 ∉ v.toList) :
    processArg acc (mkTok f v) =
      if validForField f v then (setField acc f v, [])
      else (acc, [invalidValueWarning (fieldKey f) v (enumOf f)]) := by
  have hsw : startsWithDashDash (mkTok f v) = true := by
    unfold startsWithDashDash
    rw [mkTok_toList]
    rfl
  have had : afterDashDash (mkTok f v) = (fieldKey f).toList ++ Char.ofNat 61 :: v.toList := by
    unfold afterDashDash
    rw [mkTok_toList]
    rfl
  have hkv : parseKV (afterDashDash (mkTok f v)) = some (fieldKey f, v) := by
    rw [had]
    have := parseKV_split (fieldKey f).toList v (fieldKey_no_sep f) hv
      (by cases f <;> decide)
    simpa using this
  unfold processArg
  rw [if_pos hsw, hkv]
  show applySwitch acc (fieldKey f) v = _
  cases f <;>
    simp [applySwitch, validForField, validForKey, fieldKey, setField, enumOf]

/-- The merged options report the value written into a field. -/
theorem getQueryField_merge_set (p : QueryOverrides) (f : OptField) (v : String) :
    getQueryField (mergeOptions (setField p f v)) f = v := by
  cases f <;> rfl

/-- The merged options report the default for an absent field. -/
theorem getQueryField_merge_default (p : QueryOverrides) (f : OptField)
    (h : getOverrideField p f = none) :
    getQueryField (mergeOptions p) f = getQueryField hardcodedDefaultOptions f := by
  cases f <;>
    simp only [getOverrideField] at h <;>
    simp [mergeOptions, getQueryField, h]

/-- C1: for every argument sequence containing no recognized `--key=value`
override token, any `SearchParameters` value resolved by
`getEffectiveQueryOptions` is exactly `hardcodedDefaultOptions`
(keyword "Vue.js, Angular", location "london", dateSincePosted "past Week",
limit "100", jobType "", remoteFilter "", salary "", experienceLevel "",
sortBy "recent"). -/
theorem c1_defaults_when_no_overrides (argv : List String)
    (h : ∀ t ∈ argv, isRecognizedOverride t = false)
    (q : QueryOptions) (hq : getEffectiveQueryOptions argv = some q) :
    q = hardcodedDefaultOptions := by
  unfold getEffectiveQueryOptions at hq
  cases hp : parseCommandLineArgs argv with
  | helpExit w => rw [hp] at hq; cases hq
  | parsed a w =>
    rw [hp] at hq
    have ha : a = emptyOverrides := parseGo_no_override argv emptyOverrides [] a w h hp
    injection hq with hq2
    rw [← hq2, ha]
    rfl

/-- Witness for C1 at a concrete argument vector: an unknown key and a bare
word are both ignored, so the resolution yields exactly the defaults. -/
theorem c1_defaults_when_no_overrides_witness :
    (∀ t ∈ ["--bogus=1", "hello"], isRecognizedOverride t = false) ∧
    getEffectiveQueryOptions ["--bogus=1", "hello"] = some hardcodedDefaultOptions := by
  have h : ∀ t ∈ ["--bogus=1", "hello"], isRecognizedOverride t = false := by decide
  have hq : getEffectiveQueryOptions ["--bogus=1", "hello"] = some (mergeOptions emptyOverrides) := rfl
  exact ⟨h, (c1_defaults_when_no_overrides ["--bogus=1", "hello"] h (mergeOptions emptyOverrides) hq) ▸ hq⟩

/-- C2 (amended): appending an override token `--key=value` whose value
contains no `=` character (the parser truncates a value at its first `=`)
behaves as follows — a valid value overwrites the field, so the LAST VALID
token for a key wins; an out-of-enumeration value emits a warning and leaves
the resolution of the preceding tokens unchanged (which is the default only
when no valid override for that key preceded); an absent override resolves
to the default. -/
theorem c2_override_lastwrite (args : List String) (acc : QueryOverrides) (ws : List String)
    (f : OptField) (v : String)
    (hp : parseCommandLineArgs args = ParseOutcome.parsed acc ws)
    (hv : Char.ofNat 61 ∉ v.toList) :
    (validForField f v = true →
       parseCommandLineArgs (args ++ [mkTok f v]) = ParseOutcome.parsed (setField acc f v) ws ∧
       getQueryField (mergeOptions (setField acc f v)) f = v) ∧
    (validForField f v = false →
       parseCommandLineArgs (args ++ [mkTok f v]) =
         ParseOutcome.parsed acc (ws ++ [invalidValueWarning (fieldKey f) v (enumOf f)])) ∧
    (getOverrideField acc f = none →
       getQueryField (mergeOptions acc) f = getQueryField hardcodedDefaultOptions f) := by
  have happ := parseGo_append args (mkTok f v) emptyOverrides []
  unfold parseCommandLineArgs at hp ⊢
  rw [hp] at happ
  have happ2 : parseGo emptyOverrides [] (args ++ [mkTok f v]) =
      (if mkTok f v = "--help" ∨ mkTok f v = "-h" then ParseOutcome.helpExit ws
       else ParseOutcome.parsed (processArg acc (mkTok f v)).1
         (ws ++ (processArg acc (mkTok f v)).2)) := happ
  rw [if_neg (mkTok_not_help f v), processArg_field acc f v hv] at happ2
  refine ⟨?_, ?_, fun hnone => getQueryField_merge_default acc f hnone⟩
  · intro hval
    rw [if_pos hval] at happ2
    refine ⟨?_, getQueryField_merge_set acc f v⟩
    rw [happ2]
    simp
  · intro hval
    rw [if_neg (by rw [hval]; exact Bool.false_ne_true)] at happ2
    rw [happ2]

/-- Witness for C2 at a concrete input: starting from the empty argument
vector, the single valid token `--remoteFilter=remote` writes the field. -/
theorem c2_override_lastwrite_witness :
    parseCommandLineArgs ([] ++ [mkTok OptField.remoteFilter "remote"]) =
      ParseOutcome.parsed (setField emptyOverrides OptField.remoteFilter "remote") [] :=
  ((c2_override_lastwrite [] emptyOverrides [] OptField.remoteFilter "remote" rfl
    (by decide)).1 (by decide)).1

/-- Counterexample to C2 as stated: with the concrete argument vector
`["--keyword=a=b", "--sortBy=relevant", "--sortBy=bogus"]` the resolved
keyword is `"a"` (not the supplied value `"a=b"`, which the split-at-equals
destructuring truncates), and the resolved sortBy after the invalid token
`--sortBy=bogus` is the earlier valid override `"relevant"`, not the
default `"recent"`. -/
theorem c2_counterexample :
    getEffectiveQueryOptions ["--keyword=a=b", "--sortBy=relevant", "--sortBy=bogus"] =
      some { hardcodedDefaultOptions with keyword := "a", sortBy := "relevant" } ∧
    ("a" : String) ≠ "a=b" ∧ ("relevant" : String) ≠ "recent" :=
  ⟨rfl, by decide, by decide⟩

/-- C3: a `--help` or `-h` token at any position makes the run print the
usage text and exit with status 0, with no fetch action performed and all
resolution of the tokens after it bypassed (the outcome does not depend on
what follows the help token). -/
theorem c3_help_exits (pre post : List String) (htok : String)
    (hh : htok = "--help" ∨ htok = "-h") :
    ∃ w,
      (∀ post2, parseCommandLineArgs (pre ++ htok :: post2) = ParseOutcome.helpExit w) ∧
      (∀ outcome openOk port,
        startupActions (pre ++ htok :: post) outcome openOk port =
          Effect.logMsg (serverRunningMsg port) ::
            (w.map Effect.warn ++ [Effect.printUsage, Effect.exitZero])) ∧
      (∀ outcome openOk port q,
        Effect.fetchQuery q ∉ startupActions (pre ++ htok :: post) outcome openOk port) ∧
      (∀ outcome openOk port,
        Effect.printUsage ∈ startupActions (pre ++ htok :: post) outcome openOk port ∧
        Effect.exitZero ∈ startupActions (pre ++ htok :: post) outcome openOk port) := by
  obtain ⟨w, hw⟩ := parseGo_help pre htok hh emptyOverrides []
  have hacts : ∀ outcome openOk port,
      startupActions (pre ++ htok :: post) outcome openOk port =
        Effect.logMsg (serverRunningMsg port) ::
          (w.map Effect.warn ++ [Effect.printUsage, Effect.exitZero]) := by
    intro outcome openOk port
    unfold startupActions startup
    rw [show parseCommandLineArgs (pre ++ htok :: post) = ParseOutcome.helpExit w from hw post]
  refine ⟨w, fun post2 => hw post2, hacts, ?_, ?_⟩
  · intro outcome openOk port q
    rw [hacts outcome openOk port]
    simp
  · intro outcome openOk port
    rw [hacts outcome openOk port]
    simp

/-- Witness for C3 at a concrete input: `--help` between two other tokens. -/
theorem c3_help_exits_witness :
    ∃ w,
      (∀ post2, parseCommandLineArgs (["--x=1"] ++ "--help" :: post2) = ParseOutcome.helpExit w) ∧
      (∀ outcome openOk port,
        startupActions (["--x=1"] ++ "--help" :: ["--keyword=z"]) outcome openOk port =
          Effect.logMsg (serverRunningMsg port) ::
            (w.map Effect.warn ++ [Effect.printUsage, Effect.exitZero])) ∧
      (∀ outcome openOk port q,
        Effect.fetchQuery q ∉ startupActions (["--x=1"] ++ "--help" :: ["--keyword=z"]) outcome openOk port) ∧
      (∀ outcome openOk port,
        Effect.printUsage ∈ startupActions (["--x=1"] ++ "--help" :: ["--keyword=z"]) outcome openOk port ∧
        Effect.exitZero ∈ startupActions (["--x=1"] ++ "--help" :: ["--keyword=z"]) outcome openOk port) :=
  c3_help_exits ["--x=1"] ["--keyword=z"] "--help" (Or.inl rfl)

/-- String append is associative (via the underlying lists). -/
theorem strAppend_assoc (a b c : String) : a ++ b ++ c = a ++ (b ++ c) := by
  rcases a with ⟨la⟩
  rcases b with ⟨lb⟩
  rcases c with ⟨lc⟩
  show String.mk ((la ++ lb) ++ lc) = String.mk (la ++ (lb ++ lc))
  rw [List.append_assoc]

/-- Shape of a startup run that exits through help. -/
theorem startupState_helpExit (argv : List String) (o : FetchOutcome) (openOk : Bool)
    (port : String) (ws : List String)
    (hp : parseCommandLineArgs argv = ParseOutcome.helpExit ws) :
    startupState argv o openOk port = initialState := by
  unfold startupState startup
  rw [hp]

/-- Shape of the final global state of a startup run that performs the
fetch: the settled cache with the completion flag set. -/
theorem startupState_parsed (argv : List String) (o : FetchOutcome) (openOk : Bool)
    (port : String) (acc : QueryOverrides) (ws : List String)
    (hp : parseCommandLineArgs argv = ParseOutcome.parsed acc ws) :
    startupState argv o openOk port =
      { cachedJobs := (settleFetch initialState o).1.cachedJobs
        cachedErrorMessage := (settleFetch initialState o).1.cachedErrorMessage
        isInitialFetchComplete := true } := by
  unfold startupState startup
  rw [hp]
  rfl

/-- Shape of the side effects of a startup run that performs the fetch. -/
theorem startupActions_parsed (argv : List String) (o : FetchOutcome) (openOk : Bool)
    (port : String) (acc : QueryOverrides) (ws : List String)
    (hp : parseCommandLineArgs argv = ParseOutcome.parsed acc ws) :
    startupActions argv o openOk port =
      Effect.logMsg (serverRunningMsg port) ::
        (ws.map Effect.warn ++
          (Effect.logMsg performingMsg :: Effect.fetchQuery (mergeOptions acc) ::
            ((settleFetch initialState o).2 ++
              (finallyStep (settleFetch initialState o).1 openOk port).2))) := by
  unfold startupActions startup
  rw [hp]

/-- C4: a collaborator response that is a sequence of records is cached
verbatim — the settled `cachedJobs` equals the response list exactly, in
order, and the cached error message stays empty. -/
theorem c4_success_verbatim (argv : List String) (acc : QueryOverrides) (ws : List String)
    (jobs : List Job) (openOk : Bool) (port : String)
    (hp : parseCommandLineArgs argv = ParseOutcome.parsed acc ws) :
    (startupState argv (FetchOutcome.resolvedArray jobs) openOk port).cachedJobs = jobs ∧
    (startupState argv (FetchOutcome.resolvedArray jobs) openOk port).cachedErrorMessage = "" := by
  rw [startupState_parsed argv _ openOk port acc ws hp]
  exact ⟨rfl, rfl⟩

/-- A sample job record used by concrete witnesses. -/
def sampleJob : Job :=
  { position := "Dev"
    company := "Acme"
    companyLogo := none
    location := "London"
    date := "2025-01-01"
    agoTime := "1 day ago"
    salary := none
    jobUrl := "https://example.org/j/1" }

/-- Witness for C4 at a concrete run: one job in the response. -/
theorem c4_success_verbatim_witness :
    (startupState [] (FetchOutcome.resolvedArray [sampleJob]) true "3000").cachedJobs =
      [sampleJob] ∧
    (startupState [] (FetchOutcome.resolvedArray [sampleJob]) true "3000").cachedErrorMessage =
      "" :=
  c4_success_verbatim [] emptyOverrides [] [sampleJob] true "3000" rfl

/-- C5: a resolved but non-sequence-shaped response settles as a failure
with the fixed diagnostic (which begins with "No jobs found"), and
`cachedJobs` stays the empty sequence. -/
theorem c5_nonarray_failure (argv : List String) (acc : QueryOverrides) (ws : List String)
    (openOk : Bool) (port : String)
    (hp : parseCommandLineArgs argv = ParseOutcome.parsed acc ws) :
    (startupState argv FetchOutcome.resolvedNonArray openOk port).cachedErrorMessage =
      noJobsFoundMsg ∧
    List.isPrefixOf "No jobs found".toList noJobsFoundMsg.toList = true ∧
    (startupState argv FetchOutcome.resolvedNonArray openOk port).cachedJobs = [] := by
  rw [startupState_parsed argv _ openOk port acc ws hp]
  exact ⟨rfl, by decide, rfl⟩

/-- Witness for C5 at a concrete run. -/
theorem c5_nonarray_failure_witness :
    (startupState [] FetchOutcome.resolvedNonArray false "3000").cachedErrorMessage =
      noJobsFoundMsg ∧
    List.isPrefixOf "No jobs found".toList noJobsFoundMsg.toList = true ∧
    (startupState [] FetchOutcome.resolvedNonArray false "3000").cachedJobs = [] :=
  c5_nonarray_failure [] emptyOverrides [] false "3000" rfl

/-- C6: a rejection carrying a message and HTTP status 429 settles with a
cached error message that contains the message of the collaborator and ends
with the rate-limit hint appended: the message equals the fixed failure
frame around the (falsy-defaulted) collaborator message followed by the
hint.  An empty collaborator message is falsy in JavaScript, so it defaults
to `Unknown error` — and is trivially contained either way. -/
theorem c6_ratelimit_message (argv : List String) (acc : QueryOverrides) (ws : List String)
    (e : JsError) (m : String) (openOk : Bool) (port : String)
    (hp : parseCommandLineArgs argv = ParseOutcome.parsed acc ws)
    (hm : e.message = some m) (hs : e.responseStatus = some 429) :
    (startupState argv (FetchOutcome.rejected e) openOk port).cachedErrorMessage =
      failPre ++ orUnknown (some m) ++ failSuf ++ rateLimitHint ∧
    (∃ l r, (startupState argv (FetchOutcome.rejected e) openOk port).cachedErrorMessage =
      l ++ m ++ r) ∧
    (∃ l2, (startupState argv (FetchOutcome.rejected e) openOk port).cachedErrorMessage =
      l2 ++ rateLimitHint) := by
  rw [startupState_parsed argv _ openOk port acc ws hp]
  have h2 : fetchFailMsg e = failPre ++ orUnknown (some m) ++ failSuf ++ rateLimitHint := by
    unfold fetchFailMsg
    rw [hm, hs]
    simp
  refine ⟨h2, ?_, ⟨failPre ++ orUnknown (some m) ++ failSuf, h2⟩⟩
  by_cases hm0 : m = ""
  · refine ⟨"", failPre ++ orUnknown (some m) ++ failSuf ++ rateLimitHint, ?_⟩
    rw [show ((settleFetch initialState (FetchOutcome.rejected e)).1.cachedErrorMessage
        : String) = fetchFailMsg e from rfl, h2, hm0]
    rfl
  · refine ⟨failPre, failSuf ++ rateLimitHint, ?_⟩
    rw [show ((settleFetch initialState (FetchOutcome.rejected e)).1.cachedErrorMessage
        : String) = fetchFailMsg e from rfl, h2]
    rw [show orUnknown (some m) = m by simp [orUnknown, hm0]]
    rw [strAppend_assoc (failPre ++ m) failSuf rateLimitHint, strAppend_assoc failPre m _]

/-- Witness for C6 at a concrete run: error message "boom", status 429. -/
theorem c6_ratelimit_message_witness :
    (startupState [] (FetchOutcome.rejected { message := some "boom", responseStatus := some 429 })
        true "3000").cachedErrorMessage =
      failPre ++ orUnknown (some "boom") ++ failSuf ++ rateLimitHint ∧
    (∃ l r, (startupState []
        (FetchOutcome.rejected { message := some "boom", responseStatus := some 429 })
        true "3000").cachedErrorMessage = l ++ "boom" ++ r) ∧
    (∃ l2, (startupState []
        (FetchOutcome.rejected { message := some "boom", responseStatus := some 429 })
        true "3000").cachedErrorMessage = l2 ++ rateLimitHint) :=
  c6_ratelimit_message [] emptyOverrides [] _ "boom" true "3000" rfl rfl rfl

/-- The `GET /` handler performs no write to the globals. -/
theorem handleGet_preserves (argv : List String) (s : ServerState) :
    (handleGet argv s).2 = s := by
  unfold handleGet
  cases parseCommandLineArgs argv <;> rfl

/-- C7 (amended): in every reachable state at most one of `cachedJobs` and
`cachedErrorMessage` is non-empty; before the fetch settles both are empty;
and serving `GET /` never mutates the state (so the pair is only written by
the single settlement).  Both components may ALSO be empty after settlement,
namely when the collaborator resolves with an empty sequence. -/
theorem c7_outcome_invariant (s : ServerState) (hs : Reachable s) :
    (s.cachedJobs = [] ∨ s.cachedErrorMessage = "") ∧
    (s.isInitialFetchComplete = false → s.cachedJobs = [] ∧ s.cachedErrorMessage = "") ∧
    (∀ argv, (handleGet argv s).2 = s) := by
  cases hs with
  | init => exact ⟨Or.inl rfl, fun _ => ⟨rfl, rfl⟩, fun argv => handleGet_preserves argv _⟩
  | settled argv o openOk port =>
    cases hp : parseCommandLineArgs argv with
    | helpExit w =>
      rw [startupState_helpExit argv o openOk port w hp]
      exact ⟨Or.inl rfl, fun _ => ⟨rfl, rfl⟩, fun argv2 => handleGet_preserves argv2 _⟩
    | parsed acc w =>
      rw [startupState_parsed argv o openOk port acc w hp]
      refine ⟨?_, fun hc => absurd hc (by simp), fun argv2 => handleGet_preserves argv2 _⟩
      cases o with
      | resolvedArray jobs => exact Or.inr rfl
      | resolvedNonArray => exact Or.inl rfl
      | rejected e => exact Or.inl rfl

/-- Witness for C7 at a concrete reachable state: the state after a
rejected startup fetch. -/
theorem c7_outcome_invariant_witness :
    ((startupState [] (FetchOutcome.rejected { message := some "boom", responseStatus := none })
        true "3000").cachedJobs = [] ∨
      (startupState [] (FetchOutcome.rejected { message := some "boom", responseStatus := none })
        true "3000").cachedErrorMessage = "") ∧
    ((startupState [] (FetchOutcome.rejected { message := some "boom", responseStatus := none })
        true "3000").isInitialFetchComplete = false →
      (startupState [] (FetchOutcome.rejected { message := some "boom", responseStatus := none })
        true "3000").cachedJobs = [] ∧
      (startupState [] (FetchOutcome.rejected { message := some "boom", responseStatus := none })
        true "3000").cachedErrorMessage = "") ∧
    (∀ argv, (handleGet argv (startupState []
        (FetchOutcome.rejected { message := some "boom", responseStatus := none })
        true "3000")).2 =
      startupState [] (FetchOutcome.rejected { message := some "boom", responseStatus := none })
        true "3000") :=
  c7_outcome_invariant _ (Reachable.settled [] _ true "3000")

/-- Counterexample to C7 as stated: when the collaborator resolves with the
empty sequence, the settled (fetch-complete) state is reachable with BOTH
`cachedJobs` and `cachedErrorMessage` empty — "both empty" is not confined
to the not-yet-completed window before the fetch settles. -/
theorem c7_counterexample :
    Reachable (startupState [] (FetchOutcome.resolvedArray []) true "3000") ∧
    (startupState [] (FetchOutcome.resolvedArray []) true "3000").isInitialFetchComplete = true ∧
    (startupState [] (FetchOutcome.resolvedArray []) true "3000").cachedJobs = [] ∧
    (startupState [] (FetchOutcome.resolvedArray []) true "3000").cachedErrorMessage = "" :=
  ⟨Reachable.settled [] _ true "3000", rfl, rfl, rfl⟩

/-- No browser-open effect among warning lines. -/
theorem countP_open_warns (l : List String) :
    (l.map Effect.warn).countP isOpenAction = 0 := by
  rw [List.countP_eq_zero]
  intro a ha
  rw [List.mem_map] at ha
  obtain ⟨x, _, hx⟩ := ha
  rw [← hx]
  simp [isOpenAction]

/-- C8: in every run that performs the startup fetch, the browser-open
effect occurs exactly once regardless of how the fetch settled; the final
global state does not depend on whether the browser opened; the run never
exits; and a failed open is merely logged. -/
theorem c8_browser_once (argv : List String) (acc : QueryOverrides) (ws : List String)
    (outcome : FetchOutcome) (port : String)
    (hp : parseCommandLineArgs argv = ParseOutcome.parsed acc ws) :
    (∀ openOk, (startupActions argv outcome openOk port).countP isOpenAction = 1) ∧
    startupState argv outcome true port = startupState argv outcome false port ∧
    (∀ openOk, Effect.exitZero ∉ startupActions argv outcome openOk port) ∧
    Effect.logMsg failedOpenMsg ∈ startupActions argv outcome false port := by
  refine ⟨?_, ?_, ?_, ?_⟩
  · intro openOk
    rw [startupActions_parsed argv outcome openOk port acc ws hp]
    simp only [List.countP_cons, List.countP_append, countP_open_warns]
    cases outcome <;> cases openOk <;> simp [finallyStep, settleFetch, isOpenAction]
  · rw [startupState_parsed argv outcome true port acc ws hp,
        startupState_parsed argv outcome false port acc ws hp]
  · intro openOk
    rw [startupActions_parsed argv outcome openOk port acc ws hp]
    cases outcome <;> cases openOk <;>
      simp [finallyStep, settleFetch, List.mem_append, List.mem_map]
  · rw [startupActions_parsed argv outcome false port acc ws hp]
    cases outcome <;> simp [finallyStep, settleFetch, List.mem_append]

/-- Witness for C8 at a concrete run. -/
theorem c8_browser_once_witness :
    (∀ openOk, (startupActions ["--keyword=React"] FetchOutcome.resolvedNonArray openOk
        "3000").countP isOpenAction = 1) ∧
    startupState ["--keyword=React"] FetchOutcome.resolvedNonArray true "3000" =
      startupState ["--keyword=React"] FetchOutcome.resolvedNonArray false "3000" ∧
    (∀ openOk, Effect.exitZero ∉ startupActions ["--keyword=React"]
        FetchOutcome.resolvedNonArray openOk "3000") ∧
    Effect.logMsg failedOpenMsg ∈ startupActions ["--keyword=React"]
        FetchOutcome.resolvedNonArray false "3000" :=
  c8_browser_once ["--keyword=React"] { emptyOverrides with keyword := some "React" } []
    FetchOutcome.resolvedNonArray "3000" rfl

/-- C9: serving `GET /` never mutates the globals, and two successive
requests against the same settled state and argument vector produce the
same response — in particular byte-identical job rows, since the body is
`renderPage` applied to the unchanged cached jobs and error message. -/
theorem c9_get_idempotent (argv : List String) (acc : QueryOverrides) (ws : List String)
    (s : ServerState)
    (hp : parseCommandLineArgs argv = ParseOutcome.parsed acc ws)
    (_hc : s.isInitialFetchComplete = true) :
    (handleGet argv s).2 = s ∧
    handleGet argv ((handleGet argv s).2) = handleGet argv s ∧
    (handleGet argv s).1 =
      some (renderPage (mergeOptions acc) s.cachedJobs s.cachedErrorMessage) := by
  unfold handleGet
  rw [hp]
  exact ⟨rfl, rfl, rfl⟩

/-- Witness for C9 at a concrete settled state and argument vector. -/
theorem c9_get_idempotent_witness :
    (handleGet ["--sortBy=relevant"]
        { cachedJobs := [sampleJob], cachedErrorMessage := "", isInitialFetchComplete := true }).2 =
      { cachedJobs := [sampleJob], cachedErrorMessage := "", isInitialFetchComplete := true } ∧
    handleGet ["--sortBy=relevant"]
        ((handleGet ["--sortBy=relevant"]
          { cachedJobs := [sampleJob], cachedErrorMessage := "",
            isInitialFetchComplete := true }).2) =
      handleGet ["--sortBy=relevant"]
        { cachedJobs := [sampleJob], cachedErrorMessage := "", isInitialFetchComplete := true } ∧
    (handleGet ["--sortBy=relevant"]
        { cachedJobs := [sampleJob], cachedErrorMessage := "",
          isInitialFetchComplete := true }).1 =
      some (renderPage (mergeOptions { emptyOverrides with sortBy := some "relevant" })
        [sampleJob] "") :=
  c9_get_idempotent ["--sortBy=relevant"] { emptyOverrides with sortBy := some "relevant" } []
    { cachedJobs := [sampleJob], cachedErrorMessage := "", isInitialFetchComplete := true }
    rfl rfl

/-- Characters of a replacement pass come from the replacement string or
are non-replaced characters of the input. -/
theorem mem_replaceAllChar (c : Char) (r l : List Char) (x : Char)
    (h : x ∈ replaceAllChar c r l) : x ∈ r ∨ (x ∈ l ∧ x ≠ c) := by
  induction l with
  | nil => cases h
  | cons y ys ih =>
    simp only [replaceAllChar] at h
    rcases List.mem_append.mp h with h1 | h2
    · by_cases hy : y = c
      · rw [if_pos hy] at h1
        exact Or.inl h1
      · rw [if_neg hy] at h1
        rw [List.mem_singleton] at h1
        exact Or.inr ⟨by rw [h1]; exact List.mem_cons_self y ys, by rw [h1]; exact hy⟩
    · rcases ih h2 with h3 | ⟨h4, h5⟩
      · exact Or.inl h3
      · exact Or.inr ⟨List.mem_cons_of_mem _ h4, h5⟩

/-- C10: for every input, the output of `escapeHtml` contains no `<`, `>`,
double-quote, or apostrophe character — so a value interpolated into the
page through `escapeHtml` can neither introduce markup nor break out of a
quoted attribute value. -/
theorem c10_escapeHtml_safe (s : String) (c : Char) (hc : c ∈ (escapeHtml s).toList) :
    c ≠ '<' ∧ c ≠ '>' ∧ c ≠ quoteChar ∧ c ≠ apostropheChar := by
  have hc1 : c ∈ replaceAllChar apostropheChar "&#039;".toList
      (replaceAllChar quoteChar "&quot;".toList
        (replaceAllChar '>' "&gt;".toList
          (replaceAllChar '<' "&lt;".toList
            (replaceAllChar '&' "&amp;".toList s.toList)))) := hc
  rcases mem_replaceAllChar _ _ _ _ hc1 with h1 | ⟨h2, hne1⟩
  · exact (by decide : ∀ x ∈ ("&#039;".toList),
      x ≠ '<' ∧ x ≠ '>' ∧ x ≠ quoteChar ∧ x ≠ apostropheChar) c h1
  · rcases mem_replaceAllChar _ _ _ _ h2 with h3 | ⟨h4, hne2⟩
    · exact (by decide : ∀ x ∈ ("&quot;".toList),
        x ≠ '<' ∧ x ≠ '>' ∧ x ≠ quoteChar ∧ x ≠ apostropheChar) c h3
    · rcases mem_replaceAllChar _ _ _ _ h4 with h5 | ⟨h6, hne3⟩
      · exact (by decide : ∀ x ∈ ("&gt;".toList),
          x ≠ '<' ∧ x ≠ '>' ∧ x ≠ quoteChar ∧ x ≠ apostropheChar) c h5
      · rcases mem_replaceAllChar _ _ _ _ h6 with h7 | ⟨_, hne4⟩
        · exact (by decide : ∀ x ∈ ("&lt;".toList),
            x ≠ '<' ∧ x ≠ '>' ∧ x ≠ quoteChar ∧ x ≠ apostropheChar) c h7
        · exact ⟨hne4, hne3, hne2, hne1⟩

/-- Witness for C10 at a concrete input containing a special character. -/
theorem c10_escapeHtml_safe_witness :
    escapeHtml "a<b" = "a&lt;b" ∧
    ('a' ≠ '<' ∧ 'a' ≠ '>' ∧ 'a' ≠ quoteChar ∧ 'a' ≠ apostropheChar) :=
  ⟨rfl, c10_escapeHtml_safe "a<b" 'a' (by decide)⟩
